import Mathlib

/-
Verification of the VulkanFractalRenderer presentation/synchronization engine.

Shallow embedding of the core components:
  * FractalUBO and its mutators        (FractalRenderer.h / FractalRenderer.cpp)
  * the per-frame render loop          (FractalRenderer::RenderFrame)
  * AcquireNextImage retry protocol    (VulkanContext::AcquireNextImage)
  * FindMemoryType lookup              (VulkanContext::FindMemoryType)
  * VulkanContext::RecreateSwapChain   (event-trace model)
  * system-level resize/rebuild flow   (generation-counter model over
    VulkanContext, FractalRenderer and WindowsApplication)

C++ `float` values are modelled by the rational numbers the source-code
literals denote; C++ `int` by `Int`; `uint32_t` indices by `Nat`.
-/

/- FractalType enum, FractalRenderer.h lines 12-19 (the FRACTAL_COUNT
sentinel is not a selectable value and is omitted). -/
inductive FractalType
  | mandelbrot
  | julia
  | burningShip
  | tricorn
  | multibrot
deriving DecidableEq, Repr

/- ColorPalette enum, FractalRenderer.h lines 22-29 (PALETTE_COUNT sentinel
omitted). -/
inductive ColorPalette
  | rainbow
  | fire
  | ocean
  | grayscale
  | electric
deriving DecidableEq, Repr

/- FractalUBO struct, FractalRenderer.h lines 32-49.  Field order matches
the source declaration order. -/
structure FractalUBO where
  centerX : Rat
  centerY : Rat
  scale : Rat
  aspectRatio : Rat
  fractalType : FractalType
  maxIterations : Int
  colorPalette : ColorPalette
  padding : Int
  juliaConstantX : Rat
  juliaConstantY : Rat
  multibrotPower : Rat
  reserved : Rat
deriving DecidableEq, Repr

/- FractalRenderer::SetFractalType, FractalRenderer.cpp lines 647-649. -/
def SetFractalType (t : FractalType) (u : FractalUBO) : FractalUBO :=
  { u with fractalType := t }

/- FractalRenderer::SetMaxIterations, FractalRenderer.cpp lines 651-653:
the argument is stored directly, with no bounds check. -/
def SetMaxIterations (n : Int) (u : FractalUBO) : FractalUBO :=
  { u with maxIterations := n }

/- FractalRenderer::SetColorPalette, FractalRenderer.cpp lines 655-657. -/
def SetColorPalette (p : ColorPalette) (u : FractalUBO) : FractalUBO :=
  { u with colorPalette := p }

/- FractalRenderer::SetZoom, FractalRenderer.cpp lines 659-661:
m_ubo.scale = 1.0f / zoom. -/
def SetZoom (z : Rat) (u : FractalUBO) : FractalUBO :=
  { u with scale := 1 / z }

/- FractalRenderer::SetPan, FractalRenderer.cpp lines 663-666. -/
def SetPan (x y : Rat) (u : FractalUBO) : FractalUBO :=
  { u with centerX := x, centerY := y }

/- FractalRenderer::ResetView, FractalRenderer.cpp lines 668-679. -/
def ResetView (u : FractalUBO) : FractalUBO :=
  { u with
    centerX := 0
    centerY := 0
    scale := 1
    juliaConstantX := -(7/10)
    juliaConstantY := 27015/100000
    multibrotPower := 3 }

/- Default parameters set in the FractalRenderer constructor,
FractalRenderer.cpp lines 22-37 (aspect ratio comes from the swap chain
extent). -/
def initFractalUBO (extentW extentH : Nat) : FractalUBO :=
  { centerX := 0
    centerY := 0
    scale := 1
    aspectRatio := (extentW : Rat) / (extentH : Rat)
    fractalType := .mandelbrot
    maxIterations := 100
    colorPalette := .rainbow
    padding := 0
    juliaConstantX := -(7/10)
    juliaConstantY := 27015/100000
    multibrotPower := 3
    reserved := 0 }

/- Iteration slider range configured in WindowsApplication::CreateControls,
WindowsApplication.cpp line 327: TBM_SETRANGE with MAKELPARAM(10, 1000). -/
def iterationsSliderMin : Int := 10

def iterationsSliderMax : Int := 1000

/- FractalRenderer.h line 134. -/
def MAX_FRAMES_IN_FLIGHT : Nat := 2

/- Observable steps of one FractalRenderer::RenderFrame call, in source
order (FractalRenderer.cpp lines 571-613). -/
inductive REvent
  | waitFence (f : Nat)
  | acquireImage (i : Nat)
  | upload (i : Nat)
  | resetFence (f : Nat)
  | record (i : Nat)
  | submit (f i : Nat)
  | present (i : Nat)
deriving DecidableEq, Repr

/- Render-loop state.  `pending` lists the fence indices of submissions
whose completion fence has not yet been observed signaled (the in-flight
submissions); all fences start signaled (VK_FENCE_CREATE_SIGNALED_BIT,
FractalRenderer.cpp line 498), so `pending` starts empty.  `uniformSlots`
models the per-image mapped GPU-visible parameter buffers. -/
structure RState where
  currentFrame : Nat
  pending : List Nat
  ubo : FractalUBO
  uniformSlots : List FractalUBO
  trace : List REvent
deriving Repr

/- FractalRenderer::UpdateUniformBuffer, FractalRenderer.cpp lines 509-512:
memcpy of m_ubo into the mapped buffer of the given image slot. -/
def UpdateUniformBuffer (i : Nat) (s : RState) : RState :=
  { s with uniformSlots := s.uniformSlots.set i s.ubo }

/- Event block emitted by one RenderFrame call with frame slot f and
acquired image index i, in the order of FractalRenderer.cpp lines 571-613. -/
def frameEvents (f i : Nat) : List REvent :=
  [.waitFence f, .acquireImage i, .upload i, .resetFence f, .record i,
   .submit f i, .present i]

/- FractalRenderer::RenderFrame, FractalRenderer.cpp lines 571-613, on the
steady-state path (acquire succeeds; `acq` is the image index returned by
the mock acquire).  vkWaitForFences on fence f returns only once the GPU
has signaled it, so the wait removes f from the in-flight list; the submit
with fence f adds it back. -/
def RenderFrame (acq : Nat) (s : RState) : RState :=
  let f := s.currentFrame
  { currentFrame := (f + 1) % MAX_FRAMES_IN_FLIGHT
    pending := (s.pending.filter (fun x => x ≠ f)) ++ [f]
    ubo := s.ubo
    uniformSlots := (UpdateUniformBuffer acq s).uniformSlots
    trace := s.trace ++ frameEvents f acq }

/- In-flight bookkeeping replayed from the event trace: a wait on fence f
retires the submission guarded by f, a submit guarded by f adds one. -/
def evStep (p : List Nat) : REvent → List Nat
  | .waitFence f => p.filter (fun x => x ≠ f)
  | .submit f _ => p ++ [f]
  | _ => p

/- chkInFlight bound p evs = true iff, replaying evs from in-flight set p,
the number of in-flight submissions never exceeds `bound` at any point. -/
def chkInFlight (bound : Nat) : List Nat → List REvent → Bool
  | _, [] => true
  | p, e :: es =>
    let p' := evStep p e
    decide (p'.length ≤ bound) && chkInFlight bound p' es

/- Initial render-loop state: m_currentFrame = 0 (FractalRenderer.cpp line
20), all fences signaled, one uniform buffer per swap-chain image
(FractalRenderer.cpp lines 379-419). -/
def initRState (u : FractalUBO) (imageCount : Nat) : RState :=
  { currentFrame := 0
    pending := []
    ubo := u
    uniformSlots := List.replicate imageCount u
    trace := [] }

/- A sequence of RenderFrame calls with the given mock acquire results. -/
def runFrames (acqs : List Nat) (s : RState) : RState :=
  acqs.foldl (fun t a => RenderFrame a t) s

def isWaitFence : REvent → Option Nat
  | .waitFence f => some f
  | _ => none

def isPresent : REvent → Bool
  | .present _ => true
  | _ => false

/- Results of vkAcquireNextImageKHR as distinguished by
VulkanContext::AcquireNextImage (VulkanContext.cpp lines 681-719). -/
inductive VkAcquireResult
  | success
  | suboptimal
  | outOfDate
  | errorOther
deriving DecidableEq, Repr

/- Outcome of one AcquireNextImage call: the returned image index or the
thrown message, plus how many vkAcquireNextImageKHR attempts and how many
internal RecreateSwapChain calls were made. -/
structure AcquireOutcome where
  outcome : Except String Nat
  attempts : Nat
  rebuilds : Nat
deriving Repr

/- A stale swap-chain report from the device. -/
def staleAcq (r : VkAcquireResult) : Prop :=
  r = .outOfDate ∨ r = .suboptimal

/- Second iteration of the do-while loop in VulkanContext::AcquireNextImage
(VulkanContext.cpp lines 688-716), reached only after one rebuild:
swapChainRecreated == true and m_framebufferResized was reset to false, so
the stale branch fires only for VK_ERROR_OUT_OF_DATE_KHR and then throws
(line 700); any other non-success result throws at line 711.  `dev`
maps the attempt number to the device's (result, imageIndex). -/
def AcquireRetry (dev : Nat → VkAcquireResult × Nat) : AcquireOutcome :=
  let r := dev 1
  if r.1 = .outOfDate then
    { outcome := .error "Failed to recreate swap chain!", attempts := 2, rebuilds := 1 }
  else if r.1 ≠ .success then
    { outcome := .error "Failed to acquire swap chain image!", attempts := 2, rebuilds := 1 }
  else
    { outcome := .ok r.2, attempts := 2, rebuilds := 1 }

/- VulkanContext::AcquireNextImage, VulkanContext.cpp lines 681-719.
First iteration of the do-while: swapChainRecreated == false, so the
condition at lines 694-696 is out-of-date, suboptimal, or the
m_framebufferResized flag; that branch rebuilds the swap chain once and
loops back (modelled by AcquireRetry, the flag having been cleared).  The
swapChainRecreated flag makes a third iteration unreachable. -/
def AcquireNextImage (dev : Nat → VkAcquireResult × Nat)
    (framebufferResized : Bool) : AcquireOutcome :=
  let r := dev 0
  if r.1 = .outOfDate ∨ r.1 = .suboptimal ∨ framebufferResized = true then
    AcquireRetry dev
  else if r.1 ≠ .success then
    { outcome := .error "Failed to acquire swap chain image!", attempts := 1, rebuilds := 0 }
  else
    { outcome := .ok r.2, attempts := 1, rebuilds := 0 }

/- One entry of VkPhysicalDeviceMemoryProperties::memoryTypes. -/
structure VkMemoryType where
  propertyFlags : Nat
deriving DecidableEq, Repr

/- typeFilter & (1 << i), VulkanContext.cpp line 622. -/
def typeBitMatches (typeFilter i : Nat) : Bool :=
  typeFilter.testBit i

/- (memoryTypes[i].propertyFlags & properties) == properties,
VulkanContext.cpp line 623. -/
def propsSatisfied (flags properties : Nat) : Bool :=
  decide ((flags &&& properties) = properties)

/- The scan loop of VulkanContext::FindMemoryType, VulkanContext.cpp lines
621-628: returns the first index (counting from `i`) whose filter bit is
set and whose property flags contain all requested properties. -/
def findMemLoop (typeFilter properties : Nat) :
    List VkMemoryType → Nat → Option Nat
  | [], _ => none
  | mt :: rest, i =>
    if typeBitMatches typeFilter i && propsSatisfied mt.propertyFlags properties then
      some i
    else
      findMemLoop typeFilter properties rest (i + 1)

/- One line of the diagnostic enumeration printed at VulkanContext.cpp
lines 637-643: the type index, whether its filter bit matches, its
property flags, and whether those flags are compatible with the request. -/
structure MemTypeReport where
  index : Nat
  filterBitMatches : Bool
  propertyFlags : Nat
  propertiesCompatible : Bool
deriving DecidableEq, Repr

/- The per-type lines of the error message, in order, one per available
memory type (VulkanContext.cpp lines 637-643). -/
def memTypeReports (typeFilter properties : Nat)
    (memTypes : List VkMemoryType) : List MemTypeReport :=
  memTypes.enum.map (fun p =>
    { index := p.1
      filterBitMatches := typeBitMatches typeFilter p.1
      propertyFlags := p.2.propertyFlags
      propertiesCompatible := propsSatisfied p.2.propertyFlags properties })

/- Structured content of the runtime_error message assembled at
VulkanContext.cpp lines 630-645 (the C++ renders this data to a string via
a stringstream; the embedding keeps it structured). -/
structure MemDiagnostic where
  typeFilter : Nat
  properties : Nat
  reports : List MemTypeReport
deriving DecidableEq, Repr

/- VulkanContext::FindMemoryType, VulkanContext.cpp lines 615-646. -/
def FindMemoryType (memTypes : List VkMemoryType)
    (typeFilter properties : Nat) : Except MemDiagnostic Nat :=
  match findMemLoop typeFilter properties memTypes 0 with
  | some i => .ok i
  | none =>
    .error
      { typeFilter := typeFilter
        properties := properties
        reports := memTypeReports typeFilter properties memTypes }

/- Both selection criteria of FindMemoryType hold at index j. -/
def memCriteria (memTypes : List VkMemoryType)
    (typeFilter properties j : Nat) : Prop :=
  typeBitMatches typeFilter j = true ∧
  ∃ mt, memTypes[j]? = some mt ∧ propsSatisfied mt.propertyFlags properties = true

/- Observable steps of VulkanContext::RecreateSwapChain, VulkanContext.cpp
lines 571-596. -/
inductive CtxEvent
  | getClientRect (w h : Int)
  | waitMessage
  | deviceWaitIdle
  | destroyImageViews
  | destroySwapChain
  | createSwapChain (w h : Int)
  | createImageViews
deriving DecidableEq, Repr

def isWindowEvent : CtxEvent → Bool
  | .getClientRect _ _ => true
  | .waitMessage => true
  | _ => false

/- The minimized-window wait loop at VulkanContext.cpp lines 572-583.
`readings` is the stream of client-area sizes returned by successive
GetClientRect calls, already adjusted for the control area (width =
right - left, height = bottom - top - 80).  Each pass reads the rect, calls
WaitMessage when a dimension is <= 0, and the loop exits once both stored
dimensions are nonzero.  `none` means every reading kept a dimension zero,
i.e. the loop is still blocking when the stream runs out. -/
def blockUntilClientAreaNonZero :
    List (Int × Int) → Option (List CtxEvent × Int × Int)
  | [] => none
  | (w, h) :: rest =>
    let evs := CtxEvent.getClientRect w h ::
      (if w ≤ 0 ∨ h ≤ 0 then [CtxEvent.waitMessage] else [])
    if w ≠ 0 ∧ h ≠ 0 then
      some (evs, w, h)
    else
      (blockUntilClientAreaNonZero rest).map (fun q => (evs ++ q.1, q.2))

/- VulkanContext::RecreateSwapChain as an event trace, VulkanContext.cpp
lines 571-596: first the window-size wait loop, then vkDeviceWaitIdle
(line 586), then CleanupSwapChain (destroys image views then the swap
chain, lines 598-613), then CreateSwapChain and CreateImageViews. -/
def RecreateSwapChainCtx (readings : List (Int × Int)) :
    Option (List CtxEvent × Int × Int) :=
  (blockUntilClientAreaNonZero readings).map (fun q =>
    (q.1 ++
      [CtxEvent.deviceWaitIdle, CtxEvent.destroyImageViews,
       CtxEvent.destroySwapChain, CtxEvent.createSwapChain q.2.1 q.2.2,
       CtxEvent.createImageViews], q.2))

/- Modelled from the spec's words for refutation of the claimed ordering:
"waits for the device to be idle, destroys image views + swap chain,
blocks on the host window until reported client dimensions are non-zero,
then recreates swap chain + views at the new extent". -/
def specC8Order (tr : List CtxEvent) : Prop :=
  ∃ b w h, (∀ e ∈ b, isWindowEvent e = true) ∧
    tr = CtxEvent.deviceWaitIdle :: CtxEvent.destroyImageViews ::
      CtxEvent.destroySwapChain ::
      (b ++ [CtxEvent.createSwapChain w h, CtxEvent.createImageViews])

/- System-level model for the resize/rebuild flow (claims C3, C4).
Device objects are tracked by generation counters: a counter bump means
the object was destroyed and recreated; `framebuffersViewsGen` records the
image-views generation the framebuffers were created against, and
`fbExtentW/H` the extent they were created at. -/
structure SysState where
  ctxW : Int
  ctxH : Int
  framebufferResized : Bool
  swapChainGen : Nat
  imageViewsGen : Nat
  extentW : Nat
  extentH : Nat
  framebuffersViewsGen : Nat
  fbExtentW : Nat
  fbExtentH : Nat
  pipelineGen : Nat
  pipelineLayoutGen : Nat
  descriptorSetLayoutGen : Nat
  renderPassGen : Nat
  commandBuffersGen : Nat
  uboAspect : Rat
  resizing : Bool
deriving DecidableEq, Repr

/- VulkanContext::RecreateSwapChain in the generation model
(VulkanContext.cpp lines 571-596): destroys and recreates the swap chain
and its image views at the current window size and clears
m_framebufferResized.  It touches nothing owned by FractalRenderer. -/
def ctxRecreateSwapChain (s : SysState) : SysState :=
  { s with
    swapChainGen := s.swapChainGen + 1
    imageViewsGen := s.imageViewsGen + 1
    extentW := s.ctxW.toNat
    extentH := s.ctxH.toNat
    framebufferResized := false }

/- VulkanContext::SetWindowSize, VulkanContext.h lines 66-70. -/
def ctxSetWindowSize (w h : Int) (s : SysState) : SysState :=
  { s with ctxW := w, ctxH := h, framebufferResized := true }

/- FractalRenderer::RecreateSwapChain, FractalRenderer.cpp lines 134-146:
CleanupSwapChain (lines 106-132) destroys the framebuffers, frees the
command buffers, destroys the pipeline and the pipeline layout; then
CreateGraphicsPipeline (recreates pipeline layout and pipeline),
CreateFramebuffers (against the context's current image views and extent)
and CreateCommandBuffers run, and the UBO aspect ratio is refreshed from
the context's current swap-chain extent.  The descriptor set layout and
the render pass are not touched. -/
def rendererRecreateSwapChain (s : SysState) : SysState :=
  { s with
    pipelineGen := s.pipelineGen + 1
    pipelineLayoutGen := s.pipelineLayoutGen + 1
    framebuffersViewsGen := s.imageViewsGen
    fbExtentW := s.extentW
    fbExtentH := s.extentH
    commandBuffersGen := s.commandBuffersGen + 1
    uboAspect := (s.extentW : Rat) / (s.extentH : Rat) }

/- WindowsApplication::OnResize, WindowsApplication.cpp lines 365-380:
when not inside an interactive size-move it forwards the size to the
context (setting m_framebufferResized) and calls the renderer's
RecreateSwapChain; the context's swap chain itself is not rebuilt here. -/
def appOnResize (w h : Int) (s : SysState) : SysState :=
  if s.resizing = false then
    rendererRecreateSwapChain (ctxSetWindowSize w h s)
  else
    s

/- WM_ENTERSIZEMOVE handler, WindowsApplication.cpp lines 203-205. -/
def appEnterSizeMove (s : SysState) : SysState :=
  { s with resizing := true }

/- WM_EXITSIZEMOVE handler, WindowsApplication.cpp lines 207-212: clears
m_resizing and calls VulkanContext::RecreateSwapChain directly (the
renderer's framebuffers are not rebuilt on this path). -/
def appExitSizeMove (s : SysState) : SysState :=
  ctxRecreateSwapChain { s with resizing := false }

/- What the next recorded command buffer observes: the generation of the
image views its framebuffer was built against, the context's current
image-views generation, and the parameter record's aspect ratio against
the current extent (FractalRenderer::RecordCommandBuffer uses
m_swapChainFramebuffers and the current extent, FractalRenderer.cpp lines
514-569). -/
structure RecordInfo where
  framebuffersViewsGen : Nat
  currentViewsGen : Nat
  uboAspect : Rat
  extentW : Nat
  extentH : Nat
deriving DecidableEq, Repr

/- One RenderFrame at system level: AcquireNextImage rebuilds the swap
chain internally when the device reports a stale chain or
m_framebufferResized is set (VulkanContext.cpp lines 694-708); afterwards
the frame is recorded against whatever framebuffers and UBO the renderer
currently holds. -/
def sysRenderFrame (stale : Bool) (s : SysState) : SysState × RecordInfo :=
  let s1 := if stale || s.framebufferResized then ctxRecreateSwapChain s else s
  (s1,
    { framebuffersViewsGen := s1.framebuffersViewsGen
      currentViewsGen := s1.imageViewsGen
      uboAspect := s1.uboAspect
      extentW := s1.extentW
      extentH := s1.extentH })

/- External events driving the system model. -/
inductive SysEvent
  | frame (stale : Bool)
  | resize (w h : Int)
  | enterSizeMove
  | exitSizeMove
deriving DecidableEq, Repr

def sysStep (s : SysState) : SysEvent → SysState × Option RecordInfo
  | .frame stale =>
    let p := sysRenderFrame stale s
    (p.1, some p.2)
  | .resize w h => (appOnResize w h s, none)
  | .enterSizeMove => (appEnterSizeMove s, none)
  | .exitSizeMove => (appExitSizeMove s, none)

/- Run a sequence of system events, collecting every RecordInfo. -/
def sysRun : List SysEvent → SysState → SysState × List RecordInfo
  | [], s => (s, [])
  | e :: es, s =>
    let p := sysStep s e
    let q := sysRun es p.1
    (q.1, (p.2.toList) ++ q.2)

/- Initial system state after startup with an 800x600 client area, all
objects freshly created (generation 0), framebuffers built against the
initial views and extent. -/
def initSys : SysState :=
  { ctxW := 800
    ctxH := 600
    framebufferResized := false
    swapChainGen := 0
    imageViewsGen := 0
    extentW := 800
    extentH := 600
    framebuffersViewsGen := 0
    fbExtentW := 800
    fbExtentH := 600
    pipelineGen := 0
    pipelineLayoutGen := 0
    descriptorSetLayoutGen := 0
    renderPassGen := 0
    commandBuffersGen := 0
    uboAspect := (800 : Rat) / 600
    resizing := false }

/- Modelled from the spec's words for refutation of claim C3: every
recorded command buffer sees framebuffers built against the current image
views and an aspect ratio matching the current extent. -/
def specC3RecordsFresh (evs : List SysEvent) : Prop :=
  ∀ r ∈ (sysRun evs initSys).2,
    r.framebuffersViewsGen = r.currentViewsGen ∧
    r.uboAspect = (r.extentW : Rat) / (r.extentH : Rat)

/- Render-loop invariant used to establish the in-flight bound: the current
frame slot is in range, the in-flight fence indices are distinct and in
range, they replay from the trace, and the bound held at every point so
far. -/
def RInv (s : RState) : Prop :=
  s.currentFrame < MAX_FRAMES_IN_FLIGHT ∧
  s.pending.Nodup ∧
  (∀ x ∈ s.pending, x < MAX_FRAMES_IN_FLIGHT) ∧
  s.trace.foldl evStep [] = s.pending ∧
  chkInFlight MAX_FRAMES_IN_FLIGHT [] s.trace = true

/- ------------------------------------------------------------------ -/
/- Theorems                                                            -/
/- ------------------------------------------------------------------ -/

/-- Claim C7: for every prior state of the Parameter Record, ResetView
restores center=(0,0), scale=1, Julia constant=(-0.7, 0.27015) and
Multibrot power=3.0. -/
theorem c7_resetview_defaults (u : FractalUBO) :
    (ResetView u).centerX = 0 ∧ (ResetView u).centerY = 0 ∧
    (ResetView u).scale = 1 ∧ (ResetView u).juliaConstantX = -(7/10) ∧
    (ResetView u).juliaConstantY = 27015/100000 ∧
    (ResetView u).multibrotPower = 3 :=
  ⟨rfl, rfl, rfl, rfl, rfl, rfl⟩

/-- Claim C10: each Parameter Store mutator modifies only its designated
field(s) and leaves every other field of the Parameter Record unchanged;
ResetView changes only centerX, centerY, scale, juliaConstantX,
juliaConstantY and multibrotPower, leaving fractalType, maxIterations,
colorPalette, aspectRatio (and padding, reserved) unchanged. -/
theorem c10_mutators_frame :
    (∀ (u : FractalUBO) (t : FractalType),
      (SetFractalType t u).fractalType = t ∧
      (SetFractalType t u).centerX = u.centerX ∧
      (SetFractalType t u).centerY = u.centerY ∧
      (SetFractalType t u).scale = u.scale ∧
      (SetFractalType t u).aspectRatio = u.aspectRatio ∧
      (SetFractalType t u).maxIterations = u.maxIterations ∧
      (SetFractalType t u).colorPalette = u.colorPalette ∧
      (SetFractalType t u).padding = u.padding ∧
      (SetFractalType t u).juliaConstantX = u.juliaConstantX ∧
      (SetFractalType t u).juliaConstantY = u.juliaConstantY ∧
      (SetFractalType t u).multibrotPower = u.multibrotPower ∧
      (SetFractalType t u).reserved = u.reserved) ∧
    (∀ (u : FractalUBO) (n : Int),
      (SetMaxIterations n u).maxIterations = n ∧
      (SetMaxIterations n u).centerX = u.centerX ∧
      (SetMaxIterations n u).centerY = u.centerY ∧
      (SetMaxIterations n u).scale = u.scale ∧
      (SetMaxIterations n u).aspectRatio = u.aspectRatio ∧
      (SetMaxIterations n u).fractalType = u.fractalType ∧
      (SetMaxIterations n u).colorPalette = u.colorPalette ∧
      (SetMaxIterations n u).padding = u.padding ∧
      (SetMaxIterations n u).juliaConstantX = u.juliaConstantX ∧
      (SetMaxIterations n u).juliaConstantY = u.juliaConstantY ∧
      (SetMaxIterations n u).multibrotPower = u.multibrotPower ∧
      (SetMaxIterations n u).reserved = u.reserved) ∧
    (∀ (u : FractalUBO) (p : ColorPalette),
      (SetColorPalette p u).colorPalette = p ∧
      (SetColorPalette p u).centerX = u.centerX ∧
      (SetColorPalette p u).centerY = u.centerY ∧
      (SetColorPalette p u).scale = u.scale ∧
      (SetColorPalette p u).aspectRatio = u.aspectRatio ∧
      (SetColorPalette p u).fractalType = u.fractalType ∧
      (SetColorPalette p u).maxIterations = u.maxIterations ∧
      (SetColorPalette p u).padding = u.padding ∧
      (SetColorPalette p u).juliaConstantX = u.juliaConstantX ∧
      (SetColorPalette p u).juliaConstantY = u.juliaConstantY ∧
      (SetColorPalette p u).multibrotPower = u.multibrotPower ∧
      (SetColorPalette p u).reserved = u.reserved) ∧
    (∀ (u : FractalUBO) (z : Rat),
      (SetZoom z u).scale = 1 / z ∧
      (SetZoom z u).centerX = u.centerX ∧
      (SetZoom z u).centerY = u.centerY ∧
      (SetZoom z u).aspectRatio = u.aspectRatio ∧
      (SetZoom z u).fractalType = u.fractalType ∧
      (SetZoom z u).maxIterations = u.maxIterations ∧
      (SetZoom z u).colorPalette = u.colorPalette ∧
      (SetZoom z u).padding = u.padding ∧
      (SetZoom z u).juliaConstantX = u.juliaConstantX ∧
      (SetZoom z u).juliaConstantY = u.juliaConstantY ∧
      (SetZoom z u).multibrotPower = u.multibrotPower ∧
      (SetZoom z u).reserved = u.reserved) ∧
    (∀ (u : FractalUBO) (x y : Rat),
      (SetPan x y u).centerX = x ∧
      (SetPan x y u).centerY = y ∧
      (SetPan x y u).scale = u.scale ∧
      (SetPan x y u).aspectRatio = u.aspectRatio ∧
      (SetPan x y u).fractalType = u.fractalType ∧
      (SetPan x y u).maxIterations = u.maxIterations ∧
      (SetPan x y u).colorPalette = u.colorPalette ∧
      (SetPan x y u).padding = u.padding ∧
      (SetPan x y u).juliaConstantX = u.juliaConstantX ∧
      (SetPan x y u).juliaConstantY = u.juliaConstantY ∧
      (SetPan x y u).multibrotPower = u.multibrotPower ∧
      (SetPan x y u).reserved = u.reserved) ∧
    (∀ u : FractalUBO,
      (ResetView u).fractalType = u.fractalType ∧
      (ResetView u).maxIterations = u.maxIterations ∧
      (ResetView u).colorPalette = u.colorPalette ∧
      (ResetView u).aspectRatio = u.aspectRatio ∧
      (ResetView u).padding = u.padding ∧
      (ResetView u).reserved = u.reserved) :=
  ⟨fun _ _ => ⟨rfl, rfl, rfl, rfl, rfl, rfl, rfl, rfl, rfl, rfl, rfl, rfl⟩,
   fun _ _ => ⟨rfl, rfl, rfl, rfl, rfl, rfl, rfl, rfl, rfl, rfl, rfl, rfl⟩,
   fun _ _ => ⟨rfl, rfl, rfl, rfl, rfl, rfl, rfl, rfl, rfl, rfl, rfl, rfl⟩,
   fun _ _ => ⟨rfl, rfl, rfl, rfl, rfl, rfl, rfl, rfl, rfl, rfl, rfl, rfl⟩,
   fun _ _ _ => ⟨rfl, rfl, rfl, rfl, rfl, rfl, rfl, rfl, rfl, rfl, rfl, rfl⟩,
   fun _ => ⟨rfl, rfl, rfl, rfl, rfl, rfl⟩⟩

/-- Claim C5: for every zoom value z>0, SetZoom z stores scale = 1/z; and
after SetPan(0.1, -0.2) then SetZoom(2.0), the Parameter Record copied
into the mapped GPU-visible buffer by the next RenderFrame has
center=(0.1,-0.2) and scale=0.5. -/
theorem c5_zoom_pan_upload :
    (∀ (u : FractalUBO) (z : Rat), 0 < z → (SetZoom z u).scale = 1 / z) ∧
    (∀ (s : RState) (acq : Nat), acq < s.uniformSlots.length →
      (RenderFrame acq
          { s with ubo := SetZoom 2 (SetPan (1/10) (-(1/5)) s.ubo) }).uniformSlots[acq]? =
        some (SetZoom 2 (SetPan (1/10) (-(1/5)) s.ubo)) ∧
      (SetZoom 2 (SetPan (1/10) (-(1/5)) s.ubo)).centerX = 1/10 ∧
      (SetZoom 2 (SetPan (1/10) (-(1/5)) s.ubo)).centerY = -(1/5) ∧
      (SetZoom 2 (SetPan (1/10) (-(1/5)) s.ubo)).scale = 1/2) := by
  constructor
  · intro u z _
    rfl
  · intro s acq hlt
    refine ⟨?_, rfl, rfl, by norm_num [SetZoom, SetPan]⟩
    show ((s.uniformSlots.set acq (SetZoom 2 (SetPan (1/10) (-(1/5)) s.ubo))))[acq]? =
      some (SetZoom 2 (SetPan (1/10) (-(1/5)) s.ubo))
    rw [List.getElem?_set_self]
    · simp [hlt]

/-- Witness for C5 at a concrete state: zoom 2 on the startup parameters,
then a frame with image index 0 on a 2-image chain. -/
theorem c5_zoom_pan_upload_witness :
    (SetZoom 2 (initFractalUBO 800 600)).scale = 1 / 2 ∧
    (RenderFrame 0
        { initRState (initFractalUBO 800 600) 2 with
          ubo := SetZoom 2 (SetPan (1/10) (-(1/5))
            (initRState (initFractalUBO 800 600) 2).ubo) }).uniformSlots[0]? =
      some (SetZoom 2 (SetPan (1/10) (-(1/5))
        (initRState (initFractalUBO 800 600) 2).ubo)) :=
  ⟨c5_zoom_pan_upload.1 (initFractalUBO 800 600) 2 (by norm_num),
   (c5_zoom_pan_upload.2 (initRState (initFractalUBO 800 600) 2) 0 (by decide)).1⟩

/-- Counterexample to C6 as stated: SetMaxIterations performs no bounds
validation, so SetMaxIterations(0) leaves maxIterations = 0, outside
[1, 100000]. -/
theorem c6_maxiterations_counterexample :
    (SetMaxIterations 0 (initFractalUBO 800 600)).maxIterations = 0 ∧
    ¬ (1 ≤ (SetMaxIterations 0 (initFractalUBO 800 600)).maxIterations ∧
       (SetMaxIterations 0 (initFractalUBO 800 600)).maxIterations ≤ 100000) :=
  ⟨rfl, by decide⟩

/-- Claim C6 (amended): SetMaxIterations stores its argument into the
Parameter Record with no bounds validation, so the maxIterations field is
bounded only by what callers pass; values delivered through the UI
slider, whose configured range is [10, 1000], do keep the field within
[1, 100000]. -/
theorem c6_maxiterations_unvalidated :
    (∀ (u : FractalUBO) (n : Int), (SetMaxIterations n u).maxIterations = n) ∧
    (∀ (u : FractalUBO) (v : Int),
      iterationsSliderMin ≤ v → v ≤ iterationsSliderMax →
      1 ≤ (SetMaxIterations v u).maxIterations ∧
      (SetMaxIterations v u).maxIterations ≤ 100000) := by
  constructor
  · intro u n
    rfl
  · intro u v h1 h2
    simp only [iterationsSliderMin] at h1
    simp only [iterationsSliderMax] at h2
    exact ⟨by simp only [SetMaxIterations]; omega, by simp only [SetMaxIterations]; omega⟩

/-- Witness for the amended C6 at the slider's startup position 100. -/
theorem c6_maxiterations_unvalidated_witness :
    1 ≤ (SetMaxIterations 100 (initFractalUBO 800 600)).maxIterations ∧
    (SetMaxIterations 100 (initFractalUBO 800 600)).maxIterations ≤ 100000 :=
  c6_maxiterations_unvalidated.2 (initFractalUBO 800 600) 100 (by decide) (by decide)

/-- Counterexample to C4 as stated: the resize path
(WindowsApplication::OnResize → FractalRenderer::RecreateSwapChain)
destroys and recreates the pipeline object and the pipeline layout, not
only the framebuffers. -/
theorem c4_resize_pipeline_counterexample :
    (appOnResize 1024 768 initSys).pipelineGen ≠ initSys.pipelineGen ∧
    (appOnResize 1024 768 initSys).pipelineLayoutGen ≠ initSys.pipelineLayoutGen := by
  decide

/-- Claim C4 (amended): on a resize, the renderer rebuilds the
framebuffers, the command buffers, the pipeline object and the pipeline
layout against the context's current image views and extent; the
descriptor set layout, the render pass and the context's swap chain are
left unchanged by the resize path. -/
theorem c4_resize_rebuilds (s : SysState) (w h : Int) :
    (appOnResize w h { s with resizing := false }).framebuffersViewsGen = s.imageViewsGen ∧
    (appOnResize w h { s with resizing := false }).fbExtentW = s.extentW ∧
    (appOnResize w h { s with resizing := false }).fbExtentH = s.extentH ∧
    (appOnResize w h { s with resizing := false }).pipelineGen = s.pipelineGen + 1 ∧
    (appOnResize w h { s with resizing := false }).pipelineLayoutGen = s.pipelineLayoutGen + 1 ∧
    (appOnResize w h { s with resizing := false }).commandBuffersGen = s.commandBuffersGen + 1 ∧
    (appOnResize w h { s with resizing := false }).descriptorSetLayoutGen = s.descriptorSetLayoutGen ∧
    (appOnResize w h { s with resizing := false }).renderPassGen = s.renderPassGen ∧
    (appOnResize w h { s with resizing := false }).swapChainGen = s.swapChainGen := by
  simp [appOnResize, rendererRecreateSwapChain, ctxSetWindowSize]

/-- Counterexample to C3 as stated: a swap-chain rebuild triggered
internally by a stale acquire result leaves the framebuffers built
against the destroyed image views (and the aspectRatio unrefreshed) when
the next command buffer is recorded. -/
theorem c3_stale_framebuffers_counterexample :
    ¬ specC3RecordsFresh [SysEvent.frame true] := by
  unfold specC3RecordsFresh
  decide

/-- Claim C3 (amended): swap-chain rebuilds triggered internally by a
stale result during acquire or present, or by the end-of-size-move
handler, rebuild only the swap chain and its image views and leave the
framebuffers and the aspectRatio field unchanged, so the next command
buffer is recorded against framebuffers built from the previous image
views; the framebuffers and aspectRatio are refreshed only by the
explicit resize notification (OnResize outside a size-move), which
rebuilds them against the context's current — not rebuilt — image views
and extent and only marks the swap chain for rebuild at the next
acquire. -/
theorem c3_swapchain_rebuild_paths :
    (∀ s : SysState,
      (ctxRecreateSwapChain s).framebuffersViewsGen = s.framebuffersViewsGen ∧
      (ctxRecreateSwapChain s).uboAspect = s.uboAspect ∧
      (ctxRecreateSwapChain s).imageViewsGen = s.imageViewsGen + 1 ∧
      (ctxRecreateSwapChain s).swapChainGen = s.swapChainGen + 1) ∧
    (∀ s : SysState,
      (appExitSizeMove s).framebuffersViewsGen = s.framebuffersViewsGen ∧
      (appExitSizeMove s).uboAspect = s.uboAspect ∧
      (appExitSizeMove s).swapChainGen = s.swapChainGen + 1) ∧
    (∀ s : SysState,
      (sysRenderFrame true s).2.framebuffersViewsGen = s.framebuffersViewsGen ∧
      (sysRenderFrame true s).2.currentViewsGen = s.imageViewsGen + 1 ∧
      (sysRenderFrame true s).2.uboAspect = s.uboAspect) ∧
    (∀ (w h : Int) (s : SysState),
      appOnResize w h { s with resizing := false } =
        rendererRecreateSwapChain (ctxSetWindowSize w h { s with resizing := false }) ∧
      (rendererRecreateSwapChain s).framebuffersViewsGen = s.imageViewsGen ∧
      (rendererRecreateSwapChain s).uboAspect = (s.extentW : Rat) / (s.extentH : Rat) ∧
      (rendererRecreateSwapChain s).imageViewsGen = s.imageViewsGen ∧
      (rendererRecreateSwapChain s).swapChainGen = s.swapChainGen ∧
      (ctxSetWindowSize w h s).framebufferResized = true) := by
  refine ⟨fun s => ⟨rfl, rfl, rfl, rfl⟩,
          fun s => ⟨rfl, rfl, rfl⟩,
          fun s => ⟨?_, ?_, ?_⟩,
          fun w h s => ⟨?_, rfl, rfl, rfl, rfl, rfl⟩⟩
  · simp [sysRenderFrame, ctxRecreateSwapChain]
  · simp [sysRenderFrame, ctxRecreateSwapChain]
  · simp [sysRenderFrame, ctxRecreateSwapChain]
  · simp [appOnResize]

/-- Claim C2: AcquireNextImage performs at most two acquisition attempts
for every sequence of device results; a stale first result causes exactly
one internal rebuild and exactly one retry; two consecutive stale results
end in a fatal error; the call never loops unboundedly. -/
theorem c2_acquire_retry_bounded :
    (∀ (dev : Nat → VkAcquireResult × Nat) (fb : Bool),
      (AcquireNextImage dev fb).attempts ≤ 2) ∧
    (∀ (dev : Nat → VkAcquireResult × Nat) (fb : Bool), staleAcq (dev 0).1 →
      (AcquireNextImage dev fb).attempts = 2 ∧
      (AcquireNextImage dev fb).rebuilds = 1) ∧
    (∀ (dev : Nat → VkAcquireResult × Nat) (fb : Bool),
      staleAcq (dev 0).1 → staleAcq (dev 1).1 →
      ∃ msg, (AcquireNextImage dev fb).outcome = .error msg) := by
  refine ⟨?_, ?_, ?_⟩
  · intro dev fb
    unfold AcquireNextImage AcquireRetry
    dsimp only
    split_ifs <;> simp
  · intro dev fb hst
    have hcond : (dev 0).1 = .outOfDate ∨ (dev 0).1 = .suboptimal ∨ fb = true :=
      hst.imp id Or.inl
    unfold AcquireNextImage AcquireRetry
    dsimp only
    rw [if_pos hcond]
    split_ifs <;> simp
  · intro dev fb hst0 hst1
    have hcond : (dev 0).1 = .outOfDate ∨ (dev 0).1 = .suboptimal ∨ fb = true :=
      hst0.imp id Or.inl
    unfold AcquireNextImage AcquireRetry
    dsimp only
    rw [if_pos hcond]
    rcases hst1 with h1 | h1
    · rw [if_pos h1]
      exact ⟨_, rfl⟩
    · rw [if_neg (by simp [h1]), if_pos (by simp [h1])]
      exact ⟨_, rfl⟩

/-- Witness for C2: an always-out-of-date device causes one rebuild, two
attempts and a fatal error. -/
theorem c2_acquire_retry_bounded_witness :
    (AcquireNextImage (fun _ => (VkAcquireResult.outOfDate, 0)) false).attempts = 2 ∧
    ∃ msg,
      (AcquireNextImage (fun _ => (VkAcquireResult.outOfDate, 0)) false).outcome = .error msg :=
  ⟨(c2_acquire_retry_bounded.2.1 (fun _ => (VkAcquireResult.outOfDate, 0)) false
      (Or.inl rfl)).1,
   c2_acquire_retry_bounded.2.2 (fun _ => (VkAcquireResult.outOfDate, 0)) false
     (Or.inl rfl) (Or.inl rfl)⟩

/- The window-size wait loop blocks exactly as long as every reading has a
zero dimension. -/
theorem blockUntil_none (readings : List (Int × Int)) :
    blockUntilClientAreaNonZero readings = none ↔
      ∀ p ∈ readings, p.1 = 0 ∨ p.2 = 0 := by
  induction readings with
  | nil => simp [blockUntilClientAreaNonZero]
  | cons r rest ih =>
    obtain ⟨w, h⟩ := r
    rw [blockUntilClientAreaNonZero]
    by_cases hnz : w ≠ 0 ∧ h ≠ 0
    · rw [if_pos hnz]
      constructor
      · intro hc
        exact absurd hc (by simp)
      · intro hall
        rcases hall (w, h) (List.mem_cons_self _ _) with h0 | h0
        · exact absurd h0 hnz.1
        · exact absurd h0 hnz.2
    · rw [if_neg hnz, Option.map_eq_none', ih]
      have hwh : w = 0 ∨ h = 0 := by
        by_contra hc
        push_neg at hc
        exact hnz hc
      constructor
      · intro hall p hp
        rcases List.mem_cons.mp hp with hpe | hpr
        · rw [hpe]
          exact hwh
        · exact hall p hpr
      · intro hall p hp
        exact hall p (List.mem_cons_of_mem _ hp)

/- Every event the wait loop emits is a window query or a message wait,
and the accepted dimensions are nonzero. -/
theorem blockUntil_events (readings : List (Int × Int)) :
    ∀ evs w h, blockUntilClientAreaNonZero readings = some (evs, w, h) →
      (∀ e ∈ evs, isWindowEvent e = true) ∧ w ≠ 0 ∧ h ≠ 0 := by
  induction readings with
  | nil =>
    intro evs w h hcontra
    simp [blockUntilClientAreaNonZero] at hcontra
  | cons r rest ih =>
    obtain ⟨w0, h0⟩ := r
    intro evs w h heq
    rw [blockUntilClientAreaNonZero] at heq
    by_cases hnz : w0 ≠ 0 ∧ h0 ≠ 0
    · rw [if_pos hnz] at heq
      simp only [Option.some.injEq, Prod.mk.injEq] at heq
      obtain ⟨he, hw, hh⟩ := heq
      rw [← he, ← hw, ← hh]
      refine ⟨?_, hnz.1, hnz.2⟩
      intro e hmem
      rcases List.mem_cons.mp hmem with h1 | h1
      · rw [h1]
        rfl
      · by_cases hle : w0 ≤ 0 ∨ h0 ≤ 0
        · rw [if_pos hle] at h1
          rw [List.mem_singleton.mp h1]
          rfl
        · rw [if_neg hle] at h1
          exact absurd h1 (List.not_mem_nil e)
    · rw [if_neg hnz, Option.map_eq_some'] at heq
      obtain ⟨⟨evs', w', h'⟩, hb, hf⟩ := heq
      simp only [Prod.mk.injEq] at hf
      obtain ⟨hfe, hfw, hfh⟩ := hf
      have hih := ih evs' w' h' hb
      rw [← hfe, ← hfw, ← hfh]
      refine ⟨?_, hih.2.1, hih.2.2⟩
      intro e hmem
      rcases List.mem_append.mp hmem with h1 | h1
      · rcases List.mem_cons.mp h1 with h2 | h2
        · rw [h2]
          rfl
        · by_cases hle : w0 ≤ 0 ∨ h0 ≤ 0
          · rw [if_pos hle] at h2
            rw [List.mem_singleton.mp h2]
            rfl
          · rw [if_neg hle] at h2
            exact absurd h2 (List.not_mem_nil e)
      · exact hih.1 e h1

/-- Counterexample to C8 as stated: on a window reporting an 800x600
client area at once, VulkanContext::RecreateSwapChain first queries the
window, and only then waits for device idle and destroys the old chain —
not the claimed idle-wait/destroy-first order. -/
theorem c8_recreate_order_counterexample :
    RecreateSwapChainCtx [(800, 600)] =
      some ([CtxEvent.getClientRect 800 600, CtxEvent.deviceWaitIdle,
             CtxEvent.destroyImageViews, CtxEvent.destroySwapChain,
             CtxEvent.createSwapChain 800 600, CtxEvent.createImageViews],
            800, 600) ∧
    ¬ specC8Order
        [CtxEvent.getClientRect 800 600, CtxEvent.deviceWaitIdle,
         CtxEvent.destroyImageViews, CtxEvent.destroySwapChain,
         CtxEvent.createSwapChain 800 600, CtxEvent.createImageViews] := by
  constructor
  · rfl
  · intro hsp
    obtain ⟨b, w, h, _, heq⟩ := hsp
    simp at heq

/-- Claim C8 (amended): VulkanContext::RecreateSwapChain performs, in this
order: block on the host window until the reported client dimensions are
both nonzero (handling minimized windows), wait for the device to be
idle, destroy the image views and the swap chain, then recreate the swap
chain and views at the new extent; and it keeps blocking (emitting only
window queries and message waits) as long as every reading has a zero
dimension. -/
theorem c8_recreate_order (readings : List (Int × Int)) :
    (RecreateSwapChainCtx readings = none ↔
      ∀ p ∈ readings, p.1 = 0 ∨ p.2 = 0) ∧
    (∀ tr w h, RecreateSwapChainCtx readings = some (tr, w, h) →
      w ≠ 0 ∧ h ≠ 0 ∧
      ∃ b, (∀ e ∈ b, isWindowEvent e = true) ∧
        tr = b ++ [CtxEvent.deviceWaitIdle, CtxEvent.destroyImageViews,
                   CtxEvent.destroySwapChain, CtxEvent.createSwapChain w h,
                   CtxEvent.createImageViews]) := by
  constructor
  · rw [RecreateSwapChainCtx, Option.map_eq_none']
    exact blockUntil_none readings
  · intro tr w h heq
    rw [RecreateSwapChainCtx, Option.map_eq_some'] at heq
    obtain ⟨⟨evs', w', h'⟩, hb, hf⟩ := heq
    simp only [Prod.mk.injEq] at hf
    obtain ⟨hfe, hfw, hfh⟩ := hf
    have hblk := blockUntil_events readings evs' w' h' hb
    rw [← hfw, ← hfh, ← hfe]
    exact ⟨hblk.2.1, hblk.2.2, evs', hblk.1, rfl⟩

/-- Witness for the amended C8: a single 800x600 reading yields one window
query followed by idle-wait, destruction and recreation. -/
theorem c8_recreate_order_witness :
    (800 : Int) ≠ 0 ∧ (600 : Int) ≠ 0 ∧
    ∃ b, (∀ e ∈ b, isWindowEvent e = true) ∧
      [CtxEvent.getClientRect 800 600, CtxEvent.deviceWaitIdle,
       CtxEvent.destroyImageViews, CtxEvent.destroySwapChain,
       CtxEvent.createSwapChain 800 600, CtxEvent.createImageViews] =
      b ++ [CtxEvent.deviceWaitIdle, CtxEvent.destroyImageViews,
            CtxEvent.destroySwapChain, CtxEvent.createSwapChain 800 600,
            CtxEvent.createImageViews] :=
  (c8_recreate_order [(800, 600)]).2
    [CtxEvent.getClientRect 800 600, CtxEvent.deviceWaitIdle,
     CtxEvent.destroyImageViews, CtxEvent.destroySwapChain,
     CtxEvent.createSwapChain 800 600, CtxEvent.createImageViews]
    800 600 rfl

/- The scan loop returns none exactly when no scanned entry satisfies both
criteria (indices offset by the starting counter i). -/
theorem findMemLoop_none (tf pr : Nat) :
    ∀ (l : List VkMemoryType) (i : Nat),
      findMemLoop tf pr l i = none ↔
      ∀ j mt, l[j]? = some mt →
        ¬(typeBitMatches tf (i + j) = true ∧
          propsSatisfied mt.propertyFlags pr = true) := by
  intro l
  induction l with
  | nil =>
    intro i
    simp [findMemLoop]
  | cons mt0 rest ih =>
    intro i
    rw [findMemLoop]
    by_cases hc : (typeBitMatches tf i && propsSatisfied mt0.propertyFlags pr) = true
    · rw [if_pos hc]
      constructor
      · intro hco
        exact absurd hco (by simp)
      · intro hall
        exfalso
        have hand : typeBitMatches tf i = true ∧
            propsSatisfied mt0.propertyFlags pr = true := by
          simpa using hc
        exact hall 0 mt0 (by simp) ⟨by simpa using hand.1, hand.2⟩
    · rw [if_neg hc, ih (i + 1)]
      constructor
      · intro hall j mt hj
        cases j with
        | zero =>
          simp only [List.getElem?_cons_zero, Option.some.injEq] at hj
          rw [← hj]
          intro hcrit
          apply hc
          rw [Bool.and_eq_true]
          exact ⟨by simpa using hcrit.1, hcrit.2⟩
        | succ j =>
          have := hall j mt (by simpa using hj)
          have heq : i + (j + 1) = i + 1 + j := by omega
          rw [heq]
          exact this
      · intro hall j mt hj
        have := hall (j + 1) mt (by simpa using hj)
        have heq : i + 1 + j = i + (j + 1) := by omega
        rw [heq]
        exact this

/- The scan loop returns the first satisfying index: the found entry meets
both criteria and every earlier scanned entry fails them. -/
theorem findMemLoop_some (tf pr : Nat) :
    ∀ (l : List VkMemoryType) (i k : Nat), findMemLoop tf pr l i = some k →
      ∃ d, k = i + d ∧
        (∃ mt, l[d]? = some mt ∧ typeBitMatches tf k = true ∧
          propsSatisfied mt.propertyFlags pr = true) ∧
        ∀ j mt, j < d → l[j]? = some mt →
          ¬(typeBitMatches tf (i + j) = true ∧
            propsSatisfied mt.propertyFlags pr = true) := by
  intro l
  induction l with
  | nil =>
    intro i k hco
    simp [findMemLoop] at hco
  | cons mt0 rest ih =>
    intro i k hk
    rw [findMemLoop] at hk
    by_cases hc : (typeBitMatches tf i && propsSatisfied mt0.propertyFlags pr) = true
    · rw [if_pos hc] at hk
      have hik : i = k := by simpa using hk
      have hand : typeBitMatches tf i = true ∧
          propsSatisfied mt0.propertyFlags pr = true := by
        simpa using hc
      refine ⟨0, by omega, ⟨mt0, by simp, ?_, hand.2⟩, ?_⟩
      · rw [← hik]
        exact hand.1
      · intro j mt hj _
        exact absurd hj (Nat.not_lt_zero j)
    · rw [if_neg hc] at hk
      obtain ⟨d, hkd, ⟨mt, hget, hbit, hprops⟩, hmin⟩ := ih (i + 1) k hk
      refine ⟨d + 1, by omega, ⟨mt, by simpa using hget, hbit, hprops⟩, ?_⟩
      intro j mt' hj hjg
      cases j with
      | zero =>
        simp only [List.getElem?_cons_zero, Option.some.injEq] at hjg
        rw [← hjg]
        intro hcrit
        apply hc
        rw [Bool.and_eq_true]
        exact ⟨by simpa using hcrit.1, hcrit.2⟩
      | succ j =>
        have := hmin j mt' (by omega) (by simpa using hjg)
        have heq : i + (j + 1) = i + 1 + j := by omega
        rw [heq]
        exact this

/-- Claim C9: FindMemoryType returns the smallest index whose filter bit is
set and whose property flags contain all requested properties; when no
index qualifies it raises a diagnostic that enumerates every available
memory type with, for each, whether the filter bit matched and whether the
property flags were compatible; and it raises in no other case. -/
theorem c9_find_memory_type :
    (∀ (memTypes : List VkMemoryType) (tf pr i : Nat),
      FindMemoryType memTypes tf pr = .ok i →
      memCriteria memTypes tf pr i ∧ ∀ j, j < i → ¬ memCriteria memTypes tf pr j) ∧
    (∀ (memTypes : List VkMemoryType) (tf pr : Nat),
      (∃ d, FindMemoryType memTypes tf pr = .error d) ↔
      ∀ j, ¬ memCriteria memTypes tf pr j) ∧
    (∀ (memTypes : List VkMemoryType) (tf pr : Nat) (d : MemDiagnostic),
      FindMemoryType memTypes tf pr = .error d →
      d.typeFilter = tf ∧ d.properties = pr ∧
      d.reports.length = memTypes.length ∧
      ∀ j mt, memTypes[j]? = some mt →
        d.reports[j]? = some
          ({ index := j
             filterBitMatches := typeBitMatches tf j
             propertyFlags := mt.propertyFlags
             propertiesCompatible := propsSatisfied mt.propertyFlags pr } :
            MemTypeReport)) := by
  refine ⟨?_, ?_, ?_⟩
  · intro memTypes tf pr i hok
    rw [FindMemoryType] at hok
    cases hfind : findMemLoop tf pr memTypes 0 with
    | none =>
      rw [hfind] at hok
      cases hok
    | some k =>
      rw [hfind] at hok
      have hki : k = i := by simpa using hok
      obtain ⟨d, hkd, ⟨mt, hget, hbit, hprops⟩, hmin⟩ :=
        findMemLoop_some tf pr memTypes 0 k hfind
      have hdi : d = i := by omega
      constructor
      · refine ⟨by rw [← hki]; exact hbit, mt, by rw [← hdi]; exact hget, hprops⟩
      · intro j hj hcrit
        obtain ⟨hbitj, mt', hget', hprops'⟩ := hcrit
        exact hmin j mt' (by omega) hget' ⟨by simpa using hbitj, hprops'⟩
  · intro memTypes tf pr
    constructor
    · rintro ⟨d, hd⟩ j hcrit
      obtain ⟨hbitj, mt, hget, hprops⟩ := hcrit
      rw [FindMemoryType] at hd
      cases hfind : findMemLoop tf pr memTypes 0 with
      | some k =>
        rw [hfind] at hd
        cases hd
      | none =>
        have := (findMemLoop_none tf pr memTypes 0).mp hfind j mt hget
        exact this ⟨by simpa using hbitj, hprops⟩
    · intro hall
      cases hfind : findMemLoop tf pr memTypes 0 with
      | some k =>
        exfalso
        obtain ⟨d, hkd, ⟨mt, hget, hbit, hprops⟩, _⟩ :=
          findMemLoop_some tf pr memTypes 0 k hfind
        have hkd' : k = d := by omega
        exact hall d ⟨by rw [← hkd']; exact hbit, mt, hget, hprops⟩
      | none =>
        exact ⟨{ typeFilter := tf, properties := pr,
                 reports := memTypeReports tf pr memTypes },
               by rw [FindMemoryType, hfind]⟩
  · intro memTypes tf pr d herr
    rw [FindMemoryType] at herr
    cases hfind : findMemLoop tf pr memTypes 0 with
    | some k =>
      rw [hfind] at herr
      cases herr
    | none =>
      rw [hfind] at herr
      have hd : d =
          { typeFilter := tf, properties := pr,
            reports := memTypeReports tf pr memTypes } := by
        cases herr
        rfl
      rw [hd]
      refine ⟨rfl, rfl, by simp [memTypeReports], ?_⟩
      intro j mt hget
      show (memTypeReports tf pr memTypes)[j]? = _
      rw [memTypeReports, List.getElem?_map, List.getElem?_enum, hget]
      rfl

/-- Witness for C9: a one-entry table with flags 3 under filter bit 0 and
request 2 matches at index 0; an all-zero table under request 1 fails with
a diagnostic reporting the single type's two criteria. -/
theorem c9_find_memory_type_witness :
    (memCriteria [(⟨3⟩ : VkMemoryType)] 1 2 0 ∧
      ∀ j, j < 0 → ¬ memCriteria [(⟨3⟩ : VkMemoryType)] 1 2 j) ∧
    ((⟨0, 1, [⟨0, false, 0, false⟩]⟩ : MemDiagnostic).reports.length =
        [(⟨0⟩ : VkMemoryType)].length ∧
      ∀ j mt, [(⟨0⟩ : VkMemoryType)][j]? = some mt →
        ((⟨0, 1, [⟨0, false, 0, false⟩]⟩ : MemDiagnostic).reports)[j]? =
          some
            ({ index := j
               filterBitMatches := typeBitMatches 0 j
               propertyFlags := mt.propertyFlags
               propertiesCompatible := propsSatisfied mt.propertyFlags 1 } :
              MemTypeReport)) :=
  ⟨c9_find_memory_type.1 [(⟨3⟩ : VkMemoryType)] 1 2 0 rfl,
   (c9_find_memory_type.2.2 [(⟨0⟩ : VkMemoryType)] 0 1
      (⟨0, 1, [⟨0, false, 0, false⟩]⟩ : MemDiagnostic) rfl).2.2⟩

/- chkInFlight distributes over trace concatenation. -/
theorem chkInFlight_append (b : Nat) :
    ∀ (t r : List REvent) (p : List Nat),
      chkInFlight b p (t ++ r) =
        (chkInFlight b p t && chkInFlight b (t.foldl evStep p) r) := by
  intro t
  induction t with
  | nil =>
    intro r p
    simp [chkInFlight]
  | cons e es ih =>
    intro r p
    simp only [List.cons_append, chkInFlight, List.foldl_cons, List.append_eq]
    rw [ih r (evStep p e), Bool.and_assoc]

/- A duplicate-free list whose elements are all equal has at most one
element. -/
theorem nodup_all_eq_length_le_one (q : List Nat) (c : Nat) (hq : q.Nodup)
    (hall : ∀ x ∈ q, x = c) : q.length ≤ 1 := by
  match q, hq with
  | [], _ => simp
  | [_], _ => simp
  | a :: b :: t, h =>
    exfalso
    have ha := hall a (by simp)
    have hb := hall b (by simp)
    rw [List.nodup_cons] at h
    exact h.1 (by simp [ha, hb])

/- After waiting on fence f, at most one other submission can remain in
flight: the in-flight fences are distinct, below 2, and all differ
from f. -/
theorem pending_after_wait_len (p : List Nat) (f : Nat) (hf : f < 2)
    (hnd : p.Nodup) (hb : ∀ x ∈ p, x < 2) :
    (p.filter (fun x => x ≠ f)).length ≤ 1 := by
  apply nodup_all_eq_length_le_one _ (1 - f) (hnd.filter _)
  intro x hx
  have hxp := List.mem_of_mem_filter hx
  have hxne : x ≠ f := by simpa using List.of_mem_filter hx
  have := hb x hxp
  omega

/- One frame's event block keeps the in-flight count within the bound,
provided the wait left at most one submission pending. -/
theorem chk_frameEvents (p : List Nat) (f acq : Nat)
    (hlen : (p.filter (fun x => x ≠ f)).length ≤ 1) :
    chkInFlight MAX_FRAMES_IN_FLIGHT p (frameEvents f acq) = true := by
  have hlen2 : (p.filter (fun x => !decide (x = f))).length ≤ 1 := by
    simpa using hlen
  simp only [frameEvents, chkInFlight, evStep, MAX_FRAMES_IN_FLIGHT]
  simp [List.length_append]
  omega

/- The render-loop invariant holds initially. -/
theorem RInv_initRState (u : FractalUBO) (n : Nat) : RInv (initRState u n) := by
  refine ⟨?_, ?_, ?_, rfl, rfl⟩
  · simp [initRState, MAX_FRAMES_IN_FLIGHT]
  · simp [initRState]
  · intro x hx
    simp [initRState] at hx

/- RenderFrame preserves the render-loop invariant. -/
theorem RInv_renderFrame (acq : Nat) (s : RState) (h : RInv s) :
    RInv (RenderFrame acq s) := by
  obtain ⟨hcf, hnd, hb, htr, hchk⟩ := h
  have hf2 : s.currentFrame < 2 := by
    simpa [MAX_FRAMES_IN_FLIGHT] using hcf
  have hflt : (s.pending.filter (fun x => x ≠ s.currentFrame)).length ≤ 1 :=
    pending_after_wait_len s.pending s.currentFrame hf2 hnd hb
  refine ⟨?_, ?_, ?_, ?_, ?_⟩
  · show (s.currentFrame + 1) % MAX_FRAMES_IN_FLIGHT < MAX_FRAMES_IN_FLIGHT
    exact Nat.mod_lt _ (by simp [MAX_FRAMES_IN_FLIGHT])
  · show ((s.pending.filter (fun x => x ≠ s.currentFrame)) ++ [s.currentFrame]).Nodup
    rw [List.nodup_append]
    refine ⟨hnd.filter _, List.nodup_singleton _, ?_⟩
    intro x hx hx2
    have hxne : x ≠ s.currentFrame := by simpa using List.of_mem_filter hx
    rw [List.mem_singleton] at hx2
    exact hxne hx2
  · intro x hx
    rcases List.mem_append.mp hx with h1 | h1
    · exact hb x (List.mem_of_mem_filter h1)
    · rw [List.mem_singleton] at h1
      rw [h1]
      exact hcf
  · show (s.trace ++ frameEvents s.currentFrame acq).foldl evStep [] = _
    rw [List.foldl_append, htr]
    simp [frameEvents, evStep, RenderFrame]
  · show chkInFlight MAX_FRAMES_IN_FLIGHT []
      (s.trace ++ frameEvents s.currentFrame acq) = true
    rw [chkInFlight_append, htr, Bool.and_eq_true]
    exact ⟨hchk, chk_frameEvents s.pending s.currentFrame acq hflt⟩

/- The invariant is preserved along any sequence of frames. -/
theorem RInv_runFrames (acqs : List Nat) :
    ∀ s : RState, RInv s → RInv (runFrames acqs s) := by
  induction acqs with
  | nil =>
    intro s h
    exact h
  | cons a as ih =>
    intro s h
    exact ih (RenderFrame a s) (RInv_renderFrame a s h)

/-- Claim C1: every sequence of RenderFrame calls from initialization keeps
at most N=2 submissions in flight at every point; each frame first blocks
on the completion fence of the current slot f before any other work and
advances f = (f+1) mod 2 at the end; and 5 consecutive frames on a 2-image
chain use frame slots 0,1,0,1,0 and issue exactly 5 present calls. -/
theorem c1_render_loop_synchronization :
    (∀ (u : FractalUBO) (imageCount : Nat) (acqs : List Nat),
      chkInFlight MAX_FRAMES_IN_FLIGHT []
        (runFrames acqs (initRState u imageCount)).trace = true) ∧
    (∀ (acq : Nat) (s : RState),
      (RenderFrame acq s).trace = s.trace ++ frameEvents s.currentFrame acq ∧
      frameEvents s.currentFrame acq =
        REvent.waitFence s.currentFrame ::
          [REvent.acquireImage acq, REvent.upload acq,
           REvent.resetFence s.currentFrame, REvent.record acq,
           REvent.submit s.currentFrame acq, REvent.present acq] ∧
      (RenderFrame acq s).currentFrame =
        (s.currentFrame + 1) % MAX_FRAMES_IN_FLIGHT) ∧
    (∀ u : FractalUBO,
      (runFrames [0, 1, 0, 1, 0] (initRState u 2)).trace.filterMap isWaitFence =
        [0, 1, 0, 1, 0] ∧
      ((runFrames [0, 1, 0, 1, 0] (initRState u 2)).trace.filter isPresent).length = 5) := by
  refine ⟨?_, ?_, ?_⟩
  · intro u n acqs
    exact (RInv_runFrames acqs (initRState u n) (RInv_initRState u n)).2.2.2.2
  · intro acq s
    exact ⟨rfl, rfl, rfl⟩
  · intro u
    constructor
    · simp [runFrames, RenderFrame, frameEvents, initRState, isWaitFence,
            MAX_FRAMES_IN_FLIGHT]
    · simp [runFrames, RenderFrame, frameEvents, initRState, isPresent,
            MAX_FRAMES_IN_FLIGHT]
